import Mathlib

/-!
Verification of the nvim-oxi tagged-value conversion layer and call
convention, shallowly embedded from the Rust sources.
-/

set_option maxRecDepth 8000

namespace NvimOxi

/-- Discriminant of the tagged value union (`ObjectKind` in nvim-types).
Modelled from the spec: the closed set of variants of the tagged value
(nil, boolean, integer, float, text, sequence, map, callback reference and
the three integer-tagged handle kinds). -/
inductive ObjectKind where
  | nil
  | boolean
  | integer
  | float
  | string
  | array
  | dictionary
  | luaref
  | buffer
  | window
  | tabpage
  deriving DecidableEq

/-- Modelled from the spec: the name of each discriminant as it is recorded in
wrong-variant conversion errors (`ObjectKind::as_static`, not under src/); the
spec names the kinds nil, boolean, integer, float, string, array, dictionary
and the handle kinds. -/
def ObjectKind.as_static : ObjectKind → String
  | .nil => "nil"
  | .boolean => "boolean"
  | .integer => "integer"
  | .float => "float"
  | .string => "string"
  | .array => "array"
  | .dictionary => "dictionary"
  | .luaref => "luaref"
  | .buffer => "buffer"
  | .window => "window"
  | .tabpage => "tabpage"

/-- The tagged value union (`Object` in nvim-types). Modelled from the spec:
a closed tagged union with nil, boolean, 64-bit integer, float, text, sequence,
map, callback-reference and integer-tagged handle variants. Text payloads are
carried as host strings; the float payload is kept abstract as its 64 bits
(no claim inspects it). -/
inductive Object where
  | nil
  | boolean (b : Bool)
  | integer (n : Int)
  | float (bits : Nat)
  | string (s : String)
  | array (xs : List Object)
  | dictionary (ps : List (String × Object))
  | luaref (r : Int)
  | buffer (h : Int)
  | window (h : Int)
  | tabpage (h : Int)

/-- The total, side-effect-free discriminant accessor (`Object::kind`). -/
def Object.kind : Object → ObjectKind
  | .nil => .nil
  | .boolean _ => .boolean
  | .integer _ => .integer
  | .float _ => .float
  | .string _ => .string
  | .array _ => .array
  | .dictionary _ => .dictionary
  | .luaref _ => .luaref
  | .buffer _ => .buffer
  | .window _ => .window
  | .tabpage _ => .tabpage

/-- The unchecked integer accessor (`Object::as_integer_unchecked`): reads the
integer payload shared by the Integer, Buffer, Window and TabPage variants.
Calling it on any other variant is a contract violation in the source; the
embedding returns 0 there, and every use below is guarded by a kind check. -/
def Object.as_integer_unchecked : Object → Int
  | .integer n => n
  | .buffer h => h
  | .window h => h
  | .tabpage h => h
  | _ => 0

/-- The unchecked boolean accessor (`Object::as_boolean_unchecked`). -/
def Object.as_boolean_unchecked : Object → Bool
  | .boolean b => b
  | _ => false

/-- The unchecked array accessor (`Object::into_array_unchecked`). -/
def Object.into_array_unchecked : Object → List Object
  | .array xs => xs
  | _ => []

/-- The unchecked dictionary accessor (`Object::into_dict_unchecked`). -/
def Object.into_dict_unchecked : Object → List (String × Object)
  | .dictionary ps => ps
  | _ => []

/-- Structural errors of the generic bridge. Modelled from the spec: nested
conversion errors carrying field/path context; missing required keys produce
an error naming the missing field, type mismatches record the expected and
actual kinds. -/
inductive SerdeError where
  | missingField (field : String)
  | typeMismatch (expected : String) (actual : String)
  | custom (msg : String)
  deriving DecidableEq

/-- The conversion error taxonomy (`conversion::Error` in
nvim-types/src/conversion.rs): wrong-variant with expected and actual kind
recorded, integer-range overflow, invalid text encoding, and a nested
structural error from the generic bridge. -/
inductive ConvError where
  | fromWrongType (expected : String) (actual : String)
  | fromInt
  | fromUtf8
  | serde (e : SerdeError)
  deriving DecidableEq

/-- `TryFrom<Object> for ()` from conversion.rs. -/
def unit_try_from (obj : Object) : Except ConvError Unit :=
  match obj.kind with
  | .nil => .ok ()
  | other => .error (.fromWrongType "nil" other.as_static)

/-- `TryFrom<Object> for Boolean` from conversion.rs. -/
def boolean_try_from (obj : Object) : Except ConvError Bool :=
  match obj.kind with
  | .boolean => .ok obj.as_boolean_unchecked
  | other => .error (.fromWrongType "bool" other.as_static)

/-- `TryFrom<Object> for Integer` from conversion.rs: the Integer, Buffer,
Window and TabPage discriminants are all accepted as integer-backed. -/
def integer_try_from (obj : Object) : Except ConvError Int :=
  match obj.kind with
  | .integer | .buffer | .window | .tabpage => .ok obj.as_integer_unchecked
  | other => .error (.fromWrongType "integer" other.as_static)

/-- `TryFrom<Object> for Array` from conversion.rs. The source records the
literal "string" as the expected kind in the wrong-variant error; the
embedding reproduces that literal faithfully. -/
def array_try_from (obj : Object) : Except ConvError (List Object) :=
  match obj.kind with
  | .array => .ok obj.into_array_unchecked
  | other => .error (.fromWrongType "string" other.as_static)

/-- `TryFrom<Object> for Dictionary` from conversion.rs. The source records
the literal "string" as the expected kind in the wrong-variant error; the
embedding reproduces that literal faithfully. -/
def dictionary_try_from (obj : Object) : Except ConvError (List (String × Object)) :=
  match obj.kind with
  | .dictionary => .ok obj.into_dict_unchecked
  | other => .error (.fromWrongType "string" other.as_static)

/-- `try_from_int!(i32)` from conversion.rs: decode through `Integer`, then
narrow with a range check; out-of-range values yield the FromInt error. -/
def i32_try_from (obj : Object) : Except ConvError Int :=
  (integer_try_from obj).bind fun n =>
    if -(2 ^ 31) ≤ n ∧ n < 2 ^ 31 then .ok n else .error .fromInt

/-- `try_from_int!(u32)` from conversion.rs: decode through `Integer`, then
narrow with a range check; out-of-range values yield the FromInt error. -/
def u32_try_from (obj : Object) : Except ConvError Int :=
  (integer_try_from obj).bind fun n =>
    if 0 ≤ n ∧ n < 2 ^ 32 then .ok n else .error .fromInt

/-- The foreign error slot (`nvim_types::Error`, not under src/). Modelled
from the spec: a record of an error kind and a message where the zeroed kind
means success; `is_err` reflects a non-success kind. -/
structure NvimError where
  is_err : Bool
  msg : String
  deriving DecidableEq

/-- `Error::new`: the fresh, zero-initialized (success) error slot allocated
before every foreign call. -/
def NvimError.new : NvimError := ⟨false, ""⟩

/-- The api-level error (`nvim_api::Error`, not under src/). Modelled from
the spec error taxonomy: either a boundary error carrying the foreign slot's
message, or a propagated conversion error. -/
inductive ApiError where
  | nvim (msg : String)
  | conv (e : ConvError)
  deriving DecidableEq

/-- Modelled from the spec: step (d) of the call convention (the `choose!`
macro of nvim-api, not under src/) — if the slot signals failure, convert its
message into the caller's error type; otherwise produce the success value. -/
def choose {α : Type} (err : NvimError) (other : Except ApiError α) :
    Except ApiError α :=
  if err.is_err then .error (.nvim err.msg) else other

/-- `eval` from vimscript.rs: allocate a fresh zeroed slot, run the foreign
`nvim_eval` (kept abstract as a function from the argument and the slot to
the returned payload and the written-back slot), then split on the slot via
`choose`, decoding the payload with the caller's conversion `dec` on
success. -/
def eval {α : Type} (nvim_eval : String → NvimError → Object × NvimError)
    (dec : Object → Except ConvError α) (expr : String) : Except ApiError α :=
  let call := nvim_eval expr NvimError.new
  choose call.2 ((dec call.1).mapError ApiError.conv)

/-- `call_function` from vimscript.rs, with the foreign `nvim_call_function`
kept abstract. -/
def call_function {α : Type}
    (nvim_call_function : String → List Object → NvimError → Object × NvimError)
    (dec : Object → Except ConvError α) (func : String) (args : List Object) :
    Except ApiError α :=
  let call := nvim_call_function func args NvimError.new
  choose call.2 ((dec call.1).mapError ApiError.conv)

/-- `TabPage` from tabpage.rs: a wrapper around a tab handle, where the
handle type (`TabHandle`, not under src/) is modelled from the spec as a
signed integer identifier; derived equality is equality of the handle. -/
structure TabPage where
  handle : Int
  deriving DecidableEq

/-- `TryFrom<Object> for TabPage` from tabpage.rs: decode the handle through
the integer conversion layer (a handle is a 32-bit identifier, so through the
i32 conversion), then wrap it. -/
def TabPage.try_from (obj : Object) : Except ConvError TabPage :=
  (i32_try_from obj).map TabPage.mk

/-- `From<TabPage> for Object` from tabpage.rs (`tabpage.0.into()`); the
handle-to-Object direction is modelled from the spec: handles round-trip
through the Value integer variant. -/
def TabPage.to_object (t : TabPage) : Object := .integer t.handle

/-- `TabPage::get_var` from tabpage.rs, with the foreign
`nvim_tabpage_get_var` kept abstract. -/
def TabPage.get_var {α : Type}
    (nvim_tabpage_get_var : Int → String → NvimError → Object × NvimError)
    (t : TabPage) (dec : Object → Except ConvError α) (name : String) :
    Except ApiError α :=
  let call := nvim_tabpage_get_var t.handle name NvimError.new
  choose call.2 ((dec call.1).mapError ApiError.conv)

/-- A foreign byte string (`nvim_types::String`): a raw byte buffer. -/
abbrev ByteString := List Nat

/-- Whether a byte is a UTF-8 continuation byte (0x80 to 0xBF). -/
def utf8_cont (b : Nat) : Bool := 128 ≤ b && b ≤ 191

/-- The UTF-8 validity check performed by the host string conversion,
following the standard table: ASCII; two-byte C2 to DF; three-byte E0,
E1 to EC, ED, EE to EF with their restricted second bytes (excluding
overlong encodings and surrogates); four-byte F0, F1 to F3, F4 with their
restricted second bytes. -/
def utf8_valid : ByteString → Bool
  | [] => true
  | b :: bs =>
    if b ≤ 127 then utf8_valid bs
    else if 194 ≤ b && b ≤ 223 then
      match bs with
      | b2 :: rest => utf8_cont b2 && utf8_valid rest
      | [] => false
    else if b = 224 then
      match bs with
      | b2 :: b3 :: rest =>
        (160 ≤ b2 && b2 ≤ 191) && utf8_cont b3 && utf8_valid rest
      | _ => false
    else if 225 ≤ b && b ≤ 236 then
      match bs with
      | b2 :: b3 :: rest => utf8_cont b2 && utf8_cont b3 && utf8_valid rest
      | _ => false
    else if b = 237 then
      match bs with
      | b2 :: b3 :: rest =>
        (128 ≤ b2 && b2 ≤ 159) && utf8_cont b3 && utf8_valid rest
      | _ => false
    else if 238 ≤ b && b ≤ 239 then
      match bs with
      | b2 :: b3 :: rest => utf8_cont b2 && utf8_cont b3 && utf8_valid rest
      | _ => false
    else if b = 240 then
      match bs with
      | b2 :: b3 :: b4 :: rest =>
        (144 ≤ b2 && b2 ≤ 191) && utf8_cont b3 && utf8_cont b4 &&
          utf8_valid rest
      | _ => false
    else if 241 ≤ b && b ≤ 243 then
      match bs with
      | b2 :: b3 :: b4 :: rest =>
        utf8_cont b2 && utf8_cont b3 && utf8_cont b4 && utf8_valid rest
      | _ => false
    else if b = 244 then
      match bs with
      | b2 :: b3 :: b4 :: rest =>
        (128 ≤ b2 && b2 ≤ 143) && utf8_cont b3 && utf8_cont b4 &&
          utf8_valid rest
      | _ => false
    else false

/-- `nvim_types::String::into_string` (not under src/): host strings are
UTF-8 encoded, so the conversion is modelled on the byte buffer — it
succeeds iff the bytes are valid UTF-8 and raises the invalid-encoding
error otherwise; the resulting host string is represented by its validated
byte list. -/
def into_string (s : ByteString) : Except ConvError ByteString :=
  if utf8_valid s then .ok s else .error .fromUtf8

/-- `exec` from vimscript.rs: run the foreign `nvim_exec` (abstract) with a
fresh zeroed slot; on success convert the captured output to a host string,
mapping it to none when empty and to the full output otherwise. -/
def exec (nvim_exec : String → Bool → NvimError → ByteString × NvimError)
    (src : String) (output : Bool) : Except ApiError (Option ByteString) :=
  let call := nvim_exec src output NvimError.new
  choose call.2
    (((into_string call.1).map fun o =>
      if o.isEmpty then none else some o).mapError ApiError.conv)

/-- `cmd` from vimscript.rs: same output handling as `exec`; the structured
command infos and options passed to the foreign `nvim_cmd` are kept
abstract. -/
def cmd {I O : Type} (nvim_cmd : I → O → NvimError → ByteString × NvimError)
    (infos : I) (opts : O) : Except ApiError (Option ByteString) :=
  let call := nvim_cmd infos opts NvimError.new
  choose call.2
    (((into_string call.1).map fun o =>
      if o.isEmpty then none else some o).mapError ApiError.conv)

/-- Outcome of an api call whose success path contains a panicking `expect`:
the converted value, the boundary error, or the panic. -/
inductive CallOutcome (α : Type) where
  | ok (a : α)
  | nvimErr (msg : String)
  | panicked
  deriving DecidableEq

/-- The checked Integer-to-u32 narrowing used with
`.expect("always positive")`: defined exactly when the 64-bit value fits in
an unsigned 32-bit integer. -/
def u32_of_int (n : Int) : Option Nat :=
  if 0 ≤ n ∧ n < 2 ^ 32 then some n.toNat else none

/-- `TabPage::get_number` from tabpage.rs: run the foreign
`nvim_tabpage_get_number` (abstract) with a fresh zeroed slot; on failure
surface the boundary error, on success convert the returned Integer to u32,
panicking when it does not fit. -/
def TabPage.get_number
    (nvim_tabpage_get_number : Int → NvimError → Int × NvimError)
    (t : TabPage) : CallOutcome Nat :=
  let call := nvim_tabpage_get_number t.handle NvimError.new
  if call.2.is_err then .nvimErr call.2.msg
  else
    match u32_of_int call.1 with
    | some m => .ok m
    | none => .panicked

/-- `Buffer` (nvim-api): like `TabPage`, a wrapper around an integer
handle. -/
structure Buffer where
  handle : Int
  deriving DecidableEq

/-- `Buffer::set_extmark` from extmark.rs: the foreign `nvim_buf_set_extmark`
(abstract) receives the buffer handle, the namespace id, line and column cast
to Integer, and the options (abstract); on failure the boundary error is
surfaced, on success the returned extmark id is converted to u32, panicking
when it does not fit. -/
def Buffer.set_extmark {O : Type}
    (nvim_buf_set_extmark : Int → Int → Int → Int → O → NvimError → Int × NvimError)
    (buf : Buffer) (ns_id line col : Nat) (opts : O) : CallOutcome Nat :=
  let call :=
    nvim_buf_set_extmark buf.handle (ns_id : Int) (line : Int) (col : Int)
      opts NvimError.new
  if call.2.is_err then .nvimErr call.2.msg
  else
    match u32_of_int call.1 with
    | some m => .ok m
    | none => .panicked

/-- `create_namespace` from extmark.rs: no error slot is involved — the
foreign `nvim_create_namespace` (abstract) returns an Integer converted to
u32 with a panicking expect. -/
def create_namespace (nvim_create_namespace : String → Int) (name : String) :
    CallOutcome Nat :=
  match u32_of_int (nvim_create_namespace name) with
  | some m => .ok m
  | none => .panicked

/-- Modelled from the spec: the configurable lowercase-with-underscores case
convention applied to variant names by the structural bridge — every
character is lowercased and an underscore is inserted before each uppercase
character except the first. -/
def snake_case (s : String) : String :=
  match s.data with
  | [] => ""
  | c :: cs =>
    String.mk (c.toLower :: cs.flatMap fun ch =>
      if ch.isUpper then ['_', ch.toLower] else [ch])

/-- Modelled from the spec: in the structural bridge, a unit enum variant
serializes to its name as Text under the configured case convention. -/
def serialize_unit_variant (ident : String) : Object :=
  .string (snake_case ident)

/-- Modelled from the spec: a payload-carrying variant serializes to a
single-entry Map keyed by the case-converted variant name, mapping to the
payload's own encoding. -/
def serialize_newtype_variant (ident : String) (payload : Object) : Object :=
  .dictionary [(snake_case ident, payload)]

/-- `CommandAddr` from command_addr.rs: a unit-only enum serialized with the
snake-case rename rule. -/
inductive CommandAddr where
  | Lines
  | Arguments
  | Buffers
  | LoadedBuffers
  | Windows
  | Tabs
  | Quickfix
  | Other
  deriving DecidableEq

/-- The Rust identifier of each `CommandAddr` variant. -/
def CommandAddr.ident : CommandAddr → String
  | .Lines => "Lines"
  | .Arguments => "Arguments"
  | .Buffers => "Buffers"
  | .LoadedBuffers => "LoadedBuffers"
  | .Windows => "Windows"
  | .Tabs => "Tabs"
  | .Quickfix => "Quickfix"
  | .Other => "Other"

/-- `TryFrom<CommandAddr> for Object` from command_addr.rs: serialize through
the bridge, emitting the snake-cased variant name as Text. -/
def CommandAddr.to_object (a : CommandAddr) : Object :=
  serialize_unit_variant a.ident

/-- `Function<A, R>` (nvim-types, not under src/). Modelled from the spec: a
callback reference — an opaque reference to a host-side invocable — carried
as its reference id and encoded as the callback-reference variant. -/
structure FunRef where
  luaref : Int
  deriving DecidableEq

/-- Encoding of a callback reference into the callback-reference variant. -/
def FunRef.to_object (f : FunRef) : Object := .luaref f.luaref

/-- `CommandComplete` from command_complete.rs: unit variants plus the
payload-carrying `CustomList` holding a callback. -/
inductive CommandComplete where
  | Arglist
  | Augroup
  | Buffer
  | Behave
  | Color
  | Command
  | Compiler
  | Cscope
  | Dir
  | Environment
  | Event
  | Expression
  | File
  | FileInPath
  | Filetype
  | Function
  | Help
  | Highlight
  | History
  | Locale
  | Lua
  | Mapclear
  | Mapping
  | Menu
  | Messages
  | Option
  | Packadd
  | Shellcmd
  | Sign
  | Syntax
  | Syntime
  | Tag
  | TagListfiles
  | User
  | Var
  | CustomList (f : FunRef)
  deriving DecidableEq

/-- The Rust identifier of each `CommandComplete` variant. -/
def CommandComplete.ident : CommandComplete → String
  | .Arglist => "Arglist"
  | .Augroup => "Augroup"
  | .Buffer => "Buffer"
  | .Behave => "Behave"
  | .Color => "Color"
  | .Command => "Command"
  | .Compiler => "Compiler"
  | .Cscope => "Cscope"
  | .Dir => "Dir"
  | .Environment => "Environment"
  | .Event => "Event"
  | .Expression => "Expression"
  | .File => "File"
  | .FileInPath => "FileInPath"
  | .Filetype => "Filetype"
  | .Function => "Function"
  | .Help => "Help"
  | .Highlight => "Highlight"
  | .History => "History"
  | .Locale => "Locale"
  | .Lua => "Lua"
  | .Mapclear => "Mapclear"
  | .Mapping => "Mapping"
  | .Menu => "Menu"
  | .Messages => "Messages"
  | .Option => "Option"
  | .Packadd => "Packadd"
  | .Shellcmd => "Shellcmd"
  | .Sign => "Sign"
  | .Syntax => "Syntax"
  | .Syntime => "Syntime"
  | .Tag => "Tag"
  | .TagListfiles => "TagListfiles"
  | .User => "User"
  | .Var => "Var"
  | .CustomList _ => "CustomList"

/-- `TryFrom<CommandComplete> for Object` from command_complete.rs: unit
variants serialize to their snake-cased name as Text; `CustomList` serializes
to a single-entry Map keyed by its snake-cased name, mapping to the encoded
callback. -/
def CommandComplete.to_object : CommandComplete → Object
  | .CustomList f => serialize_newtype_variant "CustomList" f.to_object
  | c => serialize_unit_variant c.ident

/-- Modelled from the spec: map-key lookup used by the decode driver — the
first entry whose key equals the field name (structs decode from a Map of
field name to field value). -/
def lookup_field (ps : List (String × Object)) (name : String) :
    Option Object :=
  (ps.find? fun p => p.1 == name).map Prod.snd

/-- Modelled from the spec: `Option` values decode Nil to absent and decode a
present non-Nil value through the element decoder, so a present value of the
wrong kind is still a hard error, never silently absent. -/
def decode_option {α : Type} (dec : Object → Except SerdeError α) :
    Object → Except SerdeError (Option α)
  | .nil => .ok none
  | v => (dec v).map some

/-- Modelled from the spec: a required struct field — a missing key produces
a structural error naming the missing field. -/
def decode_field {α : Type} (ps : List (String × Object)) (name : String)
    (dec : Object → Except SerdeError α) : Except SerdeError α :=
  match lookup_field ps name with
  | some v => dec v
  | none => .error (.missingField name)

/-- Modelled from the spec: an `Option` field — a missing key decodes to
absent with no error; a present value goes through the `Option` rule. -/
def decode_field_opt {α : Type} (ps : List (String × Object)) (name : String)
    (dec : Object → Except SerdeError α) : Except SerdeError (Option α) :=
  match lookup_field ps name with
  | some v => decode_option dec v
  | none => .ok none

/-- Modelled from the spec: a field with a declared default — a missing key
decodes to the default. -/
def decode_field_default {α : Type} (ps : List (String × Object))
    (name : String) (dec : Object → Except SerdeError α) (dflt : α) :
    Except SerdeError α :=
  match lookup_field ps name with
  | some v => dec v
  | none => .ok dflt

/-- Modelled from the spec: the bridge decodes a boolean from the Boolean
variant and reports a structural type mismatch otherwise. -/
def serde_decode_bool : Object → Except SerdeError Bool
  | .boolean b => .ok b
  | other => .error (.typeMismatch "bool" other.kind.as_static)

/-- Modelled from the spec: the bridge decodes text from the Text variant. -/
def serde_decode_string : Object → Except SerdeError String
  | .string s => .ok s
  | other => .error (.typeMismatch "string" other.kind.as_static)

/-- Modelled from the spec: the bridge decodes an unsigned 32-bit field from
the Integer variant with a range check. -/
def serde_decode_u32 : Object → Except SerdeError Nat
  | .integer n =>
    if 0 ≤ n ∧ n < 2 ^ 32 then .ok n.toNat
    else .error (.custom "out of range integral type conversion attempted")
  | other => .error (.typeMismatch "integer" other.kind.as_static)

/-- Modelled from the spec: the bridge decodes a signed 32-bit field from the
Integer variant with a range check. -/
def serde_decode_i32 : Object → Except SerdeError Int
  | .integer n =>
    if -(2 ^ 31) ≤ n ∧ n < 2 ^ 31 then .ok n
    else .error (.custom "out of range integral type conversion attempted")
  | other => .error (.typeMismatch "integer" other.kind.as_static)

/-- Modelled from the spec: the bridge decodes a callback reference from the
callback-reference variant. -/
def serde_decode_funref : Object → Except SerdeError FunRef
  | .luaref r => .ok ⟨r⟩
  | other => .error (.typeMismatch "function" other.kind.as_static)

/-- `ProcInfos` from proc_infos.rs. -/
structure ProcInfos where
  name : Option String
  pid : Option Nat
  ppid : Option Nat
  deriving DecidableEq

/-- `TryFrom<Object> for ProcInfos` from proc_infos.rs, with the serde decode
driver modelled from the spec: the struct decodes from a Map, unknown keys
are ignored, and `Option` fields treat a missing key or Nil as absent. -/
def ProcInfos.try_from (obj : Object) : Except ConvError ProcInfos :=
  (match obj with
    | .dictionary ps => do
      let name ← decode_field_opt ps "name" serde_decode_string
      let pid ← decode_field_opt ps "pid" serde_decode_u32
      let ppid ← decode_field_opt ps "ppid" serde_decode_u32
      return ProcInfos.mk name pid ppid
    | other =>
      .error (.typeMismatch "map" other.kind.as_static)).mapError
    ConvError.serde

/-- `CommandNArgs` from command_nargs.rs; `Zero` is the declared default. -/
inductive CommandNArgs where
  | Zero
  | One
  | ZeroOrOne
  | OneOrMore
  | Any
  deriving DecidableEq

/-- The serde rename of each `CommandNArgs` variant from command_nargs.rs. -/
def CommandNArgs.rename : CommandNArgs → String
  | .Zero => "0"
  | .One => "1"
  | .ZeroOrOne => "?"
  | .OneOrMore => "+"
  | .Any => "*"

/-- Decoding a `CommandNArgs` from its renamed Text form (the bridge decodes
unit variants from Text). -/
def serde_decode_nargs : Object → Except SerdeError CommandNArgs
  | .string "0" => .ok .Zero
  | .string "1" => .ok .One
  | .string "?" => .ok .ZeroOrOne
  | .string "+" => .ok .OneOrMore
  | .string "*" => .ok .Any
  | .string s => .error (.custom ("unknown variant " ++ s))
  | other => .error (.typeMismatch "string" other.kind.as_static)

/-- Decoding a `CommandAddr` from its snake-cased Text form. -/
def serde_decode_addr : Object → Except SerdeError CommandAddr
  | .string "lines" => .ok .Lines
  | .string "arguments" => .ok .Arguments
  | .string "buffers" => .ok .Buffers
  | .string "loaded_buffers" => .ok .LoadedBuffers
  | .string "windows" => .ok .Windows
  | .string "tabs" => .ok .Tabs
  | .string "quickfix" => .ok .Quickfix
  | .string "other" => .ok .Other
  | .string s => .error (.custom ("unknown variant " ++ s))
  | other => .error (.typeMismatch "string" other.kind.as_static)

/-- Modelled from the spec: the payload type of the `range` field
(`CommandRange`) is not under src/; its decoded value is kept as the raw
Value. The claims never supply the `range` key, so only the field's
missing-key behavior is load-bearing. -/
def serde_decode_range (obj : Object) : Except SerdeError Object := .ok obj

/-- `parse_count` from command_infos.rs layered on the decode driver: the
field deserializes an optional Text and parses it as a decimal u32; the
driver treats a field with a custom decode hook and no declared default as
required, so a missing `count` key is a structural error naming the field. -/
def decode_count (ps : List (String × Object)) : Except SerdeError (Option Nat) :=
  match lookup_field ps "count" with
  | none => .error (.missingField "count")
  | some v =>
    (decode_option serde_decode_string v).bind fun o =>
      match o with
      | none => .ok none
      | some s =>
        match s.toNat? with
        | some n =>
          if n < 2 ^ 32 then .ok (some n)
          else .error (.custom "number too large to fit in target type")
        | none => .error (.custom "invalid digit found in string")

/-- `CommandInfos` from command_infos.rs. -/
structure CommandInfos where
  addr : Option CommandAddr
  bang : Bool
  bar : Bool
  callback : Option FunRef
  complete : Option String
  complete_arg : Option String
  count : Option Nat
  definition : Option String
  keepscript : Bool
  name : String
  nargs : CommandNArgs
  range : Option Object
  register : Bool
  script_id : Int

/-- The field names of `CommandInfos`, in declaration order. -/
def CommandInfos.field_names : List String :=
  ["addr", "bang", "bar", "callback", "complete", "complete_arg", "count",
    "definition", "keepscript", "name", "nargs", "range", "register",
    "script_id"]

/-- `TryFrom<Object> for CommandInfos` from command_infos.rs, with the serde
decode driver modelled from the spec: the struct decodes from a Map; unknown
keys are ignored; `Option` fields decode a missing key to absent; `nargs` has
a declared default; the remaining fields — including `count`, whose custom
hook makes it required — produce a structural error naming the field when
missing. -/
def CommandInfos.try_from (obj : Object) : Except ConvError CommandInfos :=
  (match obj with
    | .dictionary ps => do
      let addr ← decode_field_opt ps "addr" serde_decode_addr
      let bang ← decode_field ps "bang" serde_decode_bool
      let bar ← decode_field ps "bar" serde_decode_bool
      let callback ← decode_field_opt ps "callback" serde_decode_funref
      let complete ← decode_field_opt ps "complete" serde_decode_string
      let complete_arg ← decode_field_opt ps "complete_arg" serde_decode_string
      let count ← decode_count ps
      let definition ← decode_field_opt ps "definition" serde_decode_string
      let keepscript ← decode_field ps "keepscript" serde_decode_bool
      let name ← decode_field ps "name" serde_decode_string
      let nargs ← decode_field_default ps "nargs" serde_decode_nargs .Zero
      let range ← decode_field_opt ps "range" serde_decode_range
      let register ← decode_field ps "register" serde_decode_bool
      let script_id ← decode_field ps "script_id" serde_decode_i32
      return CommandInfos.mk addr bang bar callback complete complete_arg
        count definition keepscript name nargs range register script_id
    | other =>
      .error (.typeMismatch "map" other.kind.as_static)).mapError
    ConvError.serde

/-- C2: decoding an Object into Integer succeeds with the carried integer
exactly for the Integer, Buffer, Window and TabPage discriminants, and for
every other discriminant (e.g. Boolean) it fails with a wrong-variant error
recording expected "integer" and the actual kind. -/
theorem integer_decode_spec :
    (∀ n : Int, integer_try_from (.integer n) = .ok n) ∧
    (∀ h : Int, integer_try_from (.buffer h) = .ok h) ∧
    (∀ h : Int, integer_try_from (.window h) = .ok h) ∧
    (∀ h : Int, integer_try_from (.tabpage h) = .ok h) ∧
    (∀ obj : Object,
      obj.kind ∉ ([.integer, .buffer, .window, .tabpage] : List ObjectKind) →
      integer_try_from obj =
        .error (.fromWrongType "integer" obj.kind.as_static)) ∧
    (∀ obj : Object,
      (∃ n, integer_try_from obj = .ok n) ↔
        obj.kind ∈ ([.integer, .buffer, .window, .tabpage] : List ObjectKind)) := by
  refine ⟨fun n => rfl, fun h => rfl, fun h => rfl, fun h => rfl, ?_, ?_⟩
  · intro obj hk
    cases obj <;> simp_all [integer_try_from, Object.kind]
  · intro obj
    cases obj <;> simp [integer_try_from, Object.kind]

/-- Witness for the integer decode theorem: a Boolean-tagged value fails with
the wrong-variant error recording expected integer and actual boolean. -/
theorem integer_decode_spec_witness :
    integer_try_from (.boolean true) =
      .error (.fromWrongType "integer" "boolean") := by
  have h := integer_decode_spec.2.2.2.2.1 (.boolean true) (by decide)
  simpa [Object.kind, ObjectKind.as_static] using h

/-- C3: evaluating the Array and Dictionary decodes at non-matching inputs —
both fail with a wrong-variant error whose actual kind is recorded correctly,
but whose expected kind is the literal "string" in the source (a copy-paste
slip from the String conversion), not "array" or "dictionary". -/
theorem array_dictionary_decode_expected_kind :
    array_try_from .nil = .error (.fromWrongType "string" "nil") ∧
    dictionary_try_from (.boolean false) =
      .error (.fromWrongType "string" "boolean") ∧
    array_try_from .nil ≠ .error (.fromWrongType "array" "nil") ∧
    dictionary_try_from (.boolean false) ≠
      .error (.fromWrongType "dictionary" "boolean") := by
  refine ⟨rfl, rfl, ?_, ?_⟩ <;>
    simp [array_try_from, dictionary_try_from, Object.kind,
      ObjectKind.as_static]

/-- C4: decoding an Integer-tagged Object into a 32-bit host integer type
succeeds with the carried value exactly when it lies in the target type's
range, and fails with the integer-conversion (range overflow) error
otherwise — never truncating or wrapping. -/
theorem int32_decode_range_spec :
    (∀ n : Int, -(2 ^ 31) ≤ n → n < 2 ^ 31 →
      i32_try_from (.integer n) = .ok n) ∧
    (∀ n : Int, ¬(-(2 ^ 31) ≤ n ∧ n < 2 ^ 31) →
      i32_try_from (.integer n) = .error .fromInt) ∧
    (∀ n : Int, 0 ≤ n → n < 2 ^ 32 → u32_try_from (.integer n) = .ok n) ∧
    (∀ n : Int, ¬(0 ≤ n ∧ n < 2 ^ 32) →
      u32_try_from (.integer n) = .error .fromInt) := by
  refine ⟨?_, ?_, ?_, ?_⟩
  · intro n h1 h2
    have hc : (-2147483648 : Int) ≤ n ∧ n < 2147483648 := by omega
    simp [i32_try_from, integer_try_from, Object.kind,
      Object.as_integer_unchecked, Except.bind, hc]
  · intro n h1
    have hc : ¬((-2147483648 : Int) ≤ n ∧ n < 2147483648) := by omega
    simp [i32_try_from, integer_try_from, Object.kind,
      Object.as_integer_unchecked, Except.bind, hc]
  · intro n h1 h2
    have hc : (0 : Int) ≤ n ∧ n < 4294967296 := by omega
    simp [u32_try_from, integer_try_from, Object.kind,
      Object.as_integer_unchecked, Except.bind, hc]
  · intro n h1
    have hc : ¬((0 : Int) ≤ n ∧ n < 4294967296) := by omega
    simp [u32_try_from, integer_try_from, Object.kind,
      Object.as_integer_unchecked, Except.bind, hc]

/-- Witness for the 32-bit range theorem: the first out-of-range values in
each direction fail, an in-range value decodes unchanged. -/
theorem int32_decode_range_spec_witness :
    i32_try_from (.integer (2 ^ 31)) = .error .fromInt ∧
    u32_try_from (.integer (2 ^ 32)) = .error .fromInt ∧
    u32_try_from (.integer (-1)) = .error .fromInt ∧
    i32_try_from (.integer 7) = .ok 7 := by
  refine ⟨?_, ?_, ?_, ?_⟩
  · exact int32_decode_range_spec.2.1 (2 ^ 31) (by norm_num)
  · exact int32_decode_range_spec.2.2.2 (2 ^ 32) (by norm_num)
  · exact int32_decode_range_spec.2.2.2 (-1) (by norm_num)
  · exact int32_decode_range_spec.1 7 (by norm_num) (by norm_num)

/-- C8: a TabPage handle round-trips through the Value integer variant — for
every handle in signed 32-bit range, encoding the TabPage into an Object and
decoding it back succeeds with an equal TabPage, where TabPage equality is
equality of the underlying integer identifier. -/
theorem tabpage_roundtrip_spec :
    (∀ t : TabPage, -(2 ^ 31) ≤ t.handle → t.handle < 2 ^ 31 →
      TabPage.try_from t.to_object = .ok t) ∧
    (∀ t u : TabPage, t = u ↔ t.handle = u.handle) := by
  constructor
  · intro t h1 h2
    obtain ⟨n⟩ := t
    simp only [TabPage.handle] at h1 h2
    have hc : (-2147483648 : Int) ≤ n ∧ n < 2147483648 := by omega
    simp [TabPage.try_from, TabPage.to_object, i32_try_from, integer_try_from,
      Object.kind, Object.as_integer_unchecked, Except.bind, Except.map, hc]
  · intro t u
    cases t
    cases u
    simp

/-- Witness for the TabPage round-trip theorem at handle 5. -/
theorem tabpage_roundtrip_spec_witness :
    TabPage.try_from (TabPage.mk 5).to_object = .ok (TabPage.mk 5) :=
  tabpage_roundtrip_spec.1 (TabPage.mk 5) (by norm_num) (by norm_num)

/-- C1: the call convention of the wrappers (eval, call_function,
TabPage::get_var) — each allocates a fresh zero-initialized error slot,
invokes the foreign function with that slot, and afterwards: if the slot
signals failure, the wrapper returns the boundary error carrying the slot's
message and its result does not depend on the payload decoder (the payload is
never decoded); if the slot stays zeroed, it returns the payload decoded
through the conversion layer. -/
theorem call_convention_spec {α : Type} :
    NvimError.new = ⟨false, ""⟩ ∧
    (∀ (f : String → NvimError → Object × NvimError)
        (dec dec2 : Object → Except ConvError α) (expr : String),
      ((f expr NvimError.new).2.is_err = true →
        eval f dec expr = .error (.nvim (f expr NvimError.new).2.msg) ∧
        eval f dec expr = eval f dec2 expr) ∧
      ((f expr NvimError.new).2.is_err = false →
        eval f dec expr =
          (dec (f expr NvimError.new).1).mapError ApiError.conv)) ∧
    (∀ (f : String → List Object → NvimError → Object × NvimError)
        (dec dec2 : Object → Except ConvError α) (fname : String)
        (args : List Object),
      ((f fname args NvimError.new).2.is_err = true →
        call_function f dec fname args =
          .error (.nvim (f fname args NvimError.new).2.msg) ∧
        call_function f dec fname args = call_function f dec2 fname args) ∧
      ((f fname args NvimError.new).2.is_err = false →
        call_function f dec fname args =
          (dec (f fname args NvimError.new).1).mapError ApiError.conv)) ∧
    (∀ (f : Int → String → NvimError → Object × NvimError) (t : TabPage)
        (dec dec2 : Object → Except ConvError α) (name : String),
      ((f t.handle name NvimError.new).2.is_err = true →
        TabPage.get_var f t dec name =
          .error (.nvim (f t.handle name NvimError.new).2.msg) ∧
        TabPage.get_var f t dec name = TabPage.get_var f t dec2 name) ∧
      ((f t.handle name NvimError.new).2.is_err = false →
        TabPage.get_var f t dec name =
          (dec (f t.handle name NvimError.new).1).mapError ApiError.conv)) := by
  refine ⟨rfl, ?_, ?_, ?_⟩
  · intro f dec dec2 expr
    constructor
    · intro h
      constructor <;> simp [eval, choose, h]
    · intro h
      simp [eval, choose, h]
  · intro f dec dec2 fname args
    constructor
    · intro h
      constructor <;> simp [call_function, choose, h]
    · intro h
      simp [call_function, choose, h]
  · intro f t dec dec2 name
    constructor
    · intro h
      constructor <;> simp [TabPage.get_var, choose, h]
    · intro h
      simp [TabPage.get_var, choose, h]

/-- Witness for the call convention theorem: a stub that sets the slot to
failure makes eval return the boundary error, and a stub that leaves the slot
zeroed and returns a Boolean payload makes eval return the decoded payload. -/
theorem call_convention_spec_witness :
    eval (fun _ _ => (Object.nil, ⟨true, "boom"⟩))
      (fun _ => .ok true) "expr" = .error (.nvim "boom") ∧
    eval (fun _ _ => (Object.boolean true, NvimError.new))
      boolean_try_from "expr" = .ok true := by
  constructor
  · exact ((call_convention_spec.2.1
      (fun _ _ => (Object.nil, ⟨true, "boom"⟩))
      (fun _ => .ok true) (fun _ => .ok true) "expr").1 rfl).1
  · have h := (call_convention_spec.2.1
      (fun _ _ => (Object.boolean true, NvimError.new))
      boolean_try_from boolean_try_from "expr").2 rfl
    simpa [boolean_try_from, Object.kind, Object.as_boolean_unchecked,
      Except.mapError] using h

/-- C9 counterexample: a foreign call that reports success (zeroed slot) with
the nonnegative result 2^32 still reaches the panicking expect inside
`TabPage::get_number` — nonnegativity alone does not make the panic branch
unreachable. -/
theorem get_number_nonnegative_panic_counterexample :
    TabPage.get_number (fun _ _ => (2 ^ 32, NvimError.new)) (TabPage.mk 1) =
      .panicked ∧
    (0 : Int) ≤ 2 ^ 32 ∧ NvimError.new.is_err = false := by
  refine ⟨?_, by norm_num, rfl⟩
  simp [TabPage.get_number, u32_of_int, NvimError.new]

/-- C9 amended: under the precondition that the foreign call reports success
with a result that fits in an unsigned 32-bit integer (nonnegative and below
2^32), the panic branch of TabPage::get_number, Buffer::set_extmark and
create_namespace is unreachable and each operation returns that result
converted losslessly to u32. -/
theorem u32_expect_spec {O : Type} :
    (∀ (f : Int → NvimError → Int × NvimError) (t : TabPage),
      (f t.handle NvimError.new).2.is_err = false →
      0 ≤ (f t.handle NvimError.new).1 →
      (f t.handle NvimError.new).1 < 2 ^ 32 →
      TabPage.get_number f t = .ok (f t.handle NvimError.new).1.toNat ∧
      ((f t.handle NvimError.new).1.toNat : Int) =
        (f t.handle NvimError.new).1) ∧
    (∀ (f : Int → Int → Int → Int → O → NvimError → Int × NvimError)
        (buf : Buffer) (ns_id line col : Nat) (opts : O),
      (f buf.handle ns_id line col opts NvimError.new).2.is_err = false →
      0 ≤ (f buf.handle ns_id line col opts NvimError.new).1 →
      (f buf.handle ns_id line col opts NvimError.new).1 < 2 ^ 32 →
      Buffer.set_extmark f buf ns_id line col opts =
        .ok (f buf.handle ns_id line col opts NvimError.new).1.toNat) ∧
    (∀ (f : String → Int) (name : String),
      0 ≤ f name → f name < 2 ^ 32 →
      create_namespace f name = .ok (f name).toNat) := by
  refine ⟨?_, ?_, ?_⟩
  · intro f t h h0 h32
    have hc : (0 : Int) ≤ (f t.handle NvimError.new).1 ∧
        (f t.handle NvimError.new).1 < 4294967296 := by omega
    refine ⟨?_, by omega⟩
    simp [TabPage.get_number, u32_of_int, h, hc]
  · intro f buf ns_id line col opts h h0 h32
    have hc : (0 : Int) ≤ (f buf.handle ns_id line col opts NvimError.new).1 ∧
        (f buf.handle ns_id line col opts NvimError.new).1 < 4294967296 := by
      omega
    simp [Buffer.set_extmark, u32_of_int, h, hc]
  · intro f name h0 h32
    have hc : (0 : Int) ≤ f name ∧ f name < 4294967296 := by omega
    simp [create_namespace, u32_of_int, hc]

/-- Witness for the u32 expect theorem: a stub succeeding with 7 makes
get_number return 7. -/
theorem u32_expect_spec_witness :
    TabPage.get_number (fun _ _ => (7, NvimError.new)) (TabPage.mk 1) =
      .ok 7 :=
  ((u32_expect_spec (O := Unit)).1 (fun _ _ => (7, NvimError.new))
    (TabPage.mk 1) rfl (by norm_num) (by norm_num)).1

/-- C10 counterexample: a foreign call that succeeds (the slot stays zeroed)
but captures the single invalid UTF-8 byte 0xFF makes `exec` return the
string-conversion error rather than `Ok` of the captured output. -/
theorem exec_output_invalid_utf8_counterexample :
    exec (fun _ _ _ => ([255], NvimError.new)) "src" true =
      .error (.conv .fromUtf8) := by
  have hv : utf8_valid [255] = false := by decide
  simp [exec, choose, into_string, NvimError.new, hv, Except.map,
    Except.mapError]

/-- C10 amended: when the foreign call succeeds, `exec` and `cmd` return Ok
none exactly when the captured output is empty; for nonempty captured output
they return Ok of the full output when it is valid UTF-8, and the
string-conversion error when it is not. -/
theorem exec_cmd_output_spec {I O : Type} :
    (∀ (f : String → Bool → NvimError → ByteString × NvimError)
        (src : String) (flag : Bool),
      (f src flag NvimError.new).2.is_err = false →
      (exec f src flag = .ok none ↔ (f src flag NvimError.new).1 = []) ∧
      (utf8_valid (f src flag NvimError.new).1 = true →
        exec f src flag =
          .ok (if (f src flag NvimError.new).1.isEmpty then none
            else some (f src flag NvimError.new).1)) ∧
      (utf8_valid (f src flag NvimError.new).1 = false →
        exec f src flag = .error (.conv .fromUtf8))) ∧
    (∀ (f : I → O → NvimError → ByteString × NvimError) (infos : I)
        (opts : O),
      (f infos opts NvimError.new).2.is_err = false →
      (cmd f infos opts = .ok none ↔ (f infos opts NvimError.new).1 = []) ∧
      (utf8_valid (f infos opts NvimError.new).1 = true →
        cmd f infos opts =
          .ok (if (f infos opts NvimError.new).1.isEmpty then none
            else some (f infos opts NvimError.new).1)) ∧
      (utf8_valid (f infos opts NvimError.new).1 = false →
        cmd f infos opts = .error (.conv .fromUtf8))) := by
  constructor
  · intro f src flag h
    refine ⟨?_, ?_, ?_⟩
    · by_cases hv : utf8_valid (f src flag NvimError.new).1 = true
      · simp [exec, choose, into_string, h, hv, Except.map, Except.mapError,
          List.isEmpty_iff]
      · have hne : (f src flag NvimError.new).1 ≠ [] := by
          intro he
          rw [he] at hv
          exact hv rfl
        simp [exec, choose, into_string, h, hv, Except.map, Except.mapError,
          hne]
    · intro hv
      simp [exec, choose, into_string, h, hv, Except.map, Except.mapError]
    · intro hv
      simp [exec, choose, into_string, h, hv, Except.map, Except.mapError]
  · intro f infos opts h
    refine ⟨?_, ?_, ?_⟩
    · by_cases hv : utf8_valid (f infos opts NvimError.new).1 = true
      · simp [cmd, choose, into_string, h, hv, Except.map, Except.mapError,
          List.isEmpty_iff]
      · have hne : (f infos opts NvimError.new).1 ≠ [] := by
          intro he
          rw [he] at hv
          exact hv rfl
        simp [cmd, choose, into_string, h, hv, Except.map, Except.mapError,
          hne]
    · intro hv
      simp [cmd, choose, into_string, h, hv, Except.map, Except.mapError]
    · intro hv
      simp [cmd, choose, into_string, h, hv, Except.map, Except.mapError]

/-- Witness for the exec/cmd output theorem: a succeeding stub returning the
text "ok" (bytes 111, 107) makes exec return it whole, and a succeeding stub
with empty output makes exec return none. -/
theorem exec_cmd_output_spec_witness :
    exec (fun _ _ _ => ([111, 107], NvimError.new)) "src" true =
      .ok (some [111, 107]) ∧
    exec (fun _ _ _ => ([], NvimError.new)) "src" true = .ok none := by
  constructor
  · have h := ((exec_cmd_output_spec (I := Unit) (O := Unit)).1
      (fun _ _ _ => ([111, 107], NvimError.new)) "src" true rfl).2.1 (by decide)
    simpa using h
  · have h := ((exec_cmd_output_spec (I := Unit) (O := Unit)).1
      (fun _ _ _ => ([], NvimError.new)) "src" true rfl).2.1 (by decide)
    simpa using h

/-- Key lookup ignores an appended entry whose key differs from the looked-up
field name. -/
theorem lookup_field_append (ps : List (String × Object)) (k name : String)
    (v : Object) (h : k ≠ name) :
    lookup_field (ps ++ [(k, v)]) name = lookup_field ps name := by
  have hk : ((k, v).1 == name) = false := by
    simp [h]
  simp [lookup_field, List.find?_append, List.find?, hk]

/-- C5: decoding CommandInfos from a Map ignores keys named by no struct
field — appending such an entry never changes the decode result, and the
concrete map holding every required field plus an extra unknown key decodes
successfully — while a map missing the required key "name" fails with a
structural error naming that missing field. -/
theorem command_infos_decode_spec :
    (∀ (ps : List (String × Object)) (k : String) (v : Object),
      k ∉ CommandInfos.field_names →
      CommandInfos.try_from (.dictionary (ps ++ [(k, v)])) =
        CommandInfos.try_from (.dictionary ps)) ∧
    CommandInfos.try_from (.dictionary
      [("bang", .boolean false), ("bar", .boolean false), ("count", .nil),
        ("keepscript", .boolean false), ("name", .string "Foo"),
        ("register", .boolean false), ("script_id", .integer 3),
        ("frobnicate", .boolean true)]) =
      .ok (CommandInfos.mk none false false none none none none none false
        "Foo" .Zero none false 3) ∧
    CommandInfos.try_from (.dictionary
      [("bang", .boolean false), ("bar", .boolean false), ("count", .nil),
        ("keepscript", .boolean false), ("register", .boolean false),
        ("script_id", .integer 3)]) =
      .error (.serde (.missingField "name")) := by
  refine ⟨?_, rfl, rfl⟩
  intro ps k v hk
  simp only [CommandInfos.field_names, List.mem_cons,
    List.not_mem_nil, or_false] at hk
  push_neg at hk
  obtain ⟨h1, h2, h3, h4, h5, h6, h7, h8, h9, h10, h11, h12, h13, h14⟩ := hk
  have l1 := lookup_field_append ps k "addr" v h1
  have l2 := lookup_field_append ps k "bang" v h2
  have l3 := lookup_field_append ps k "bar" v h3
  have l4 := lookup_field_append ps k "callback" v h4
  have l5 := lookup_field_append ps k "complete" v h5
  have l6 := lookup_field_append ps k "complete_arg" v h6
  have l7 := lookup_field_append ps k "count" v h7
  have l8 := lookup_field_append ps k "definition" v h8
  have l9 := lookup_field_append ps k "keepscript" v h9
  have l10 := lookup_field_append ps k "name" v h10
  have l11 := lookup_field_append ps k "nargs" v h11
  have l12 := lookup_field_append ps k "range" v h12
  have l13 := lookup_field_append ps k "register" v h13
  have l14 := lookup_field_append ps k "script_id" v h14
  simp only [CommandInfos.try_from, decode_field, decode_field_opt,
    decode_field_default, decode_count, l1, l2, l3, l4, l5, l6, l7, l8, l9,
    l10, l11, l12, l13, l14]

/-- Witness for the CommandInfos decode theorem: appending the unknown key
frobnicate to a map leaves its decode result unchanged. -/
theorem command_infos_decode_spec_witness :
    CommandInfos.try_from (.dictionary
      ([("name", .string "x")] ++ [("frobnicate", .nil)])) =
      CommandInfos.try_from (.dictionary [("name", .string "x")]) :=
  command_infos_decode_spec.1 [("name", .string "x")] "frobnicate" .nil
    (by decide)

/-- C6: Option-typed decoding — Nil decodes to absent for every element
decoder; a Map without the pid key decodes that field to none with no error
(the concrete map holding only a name yields name "b" with pid and ppid
absent); and a present non-Nil value of the wrong kind fails with the
element decoder's error, never silently becoming absent. -/
theorem option_decode_spec :
    (∀ (α : Type) (dec : Object → Except SerdeError α),
      decode_option dec .nil = .ok none) ∧
    ProcInfos.try_from (.dictionary [("name", .string "b")]) =
      .ok (ProcInfos.mk (some "b") none none) ∧
    (∀ (α : Type) (dec : Object → Except SerdeError α) (obj : Object)
        (e : SerdeError), obj ≠ .nil → dec obj = .error e →
      decode_option dec obj = .error e) ∧
    ProcInfos.try_from
        (.dictionary [("name", .string "b"), ("pid", .string "x")]) =
      .error (.serde (.typeMismatch "integer" "string")) := by
  refine ⟨fun α dec => rfl, rfl, ?_, rfl⟩
  intro α dec obj e hne hdec
  cases obj <;> simp_all [decode_option, Except.map]

/-- Witness for the Option decode theorem: a present Text where a u32 is
expected fails with the type mismatch instead of becoming absent. -/
theorem option_decode_spec_witness :
    decode_option serde_decode_u32 (.string "x") =
      .error (.typeMismatch "integer" "string") :=
  option_decode_spec.2.2.1 Nat serde_decode_u32 (.string "x")
    (.typeMismatch "integer" "string") (fun h => Object.noConfusion h) rfl

/-- C7: unit enum variants encode to the Text of their
lowercase-with-underscores name — each CommandAddr variant maps to the
snake-cased form of its Rust identifier, e.g. LoadedBuffers to
"loaded_buffers" — and the payload-carrying CommandComplete::CustomList
encodes to a single-entry Map keyed "custom_list" mapping to the encoded
callback. -/
theorem enum_encode_spec :
    CommandAddr.to_object .Lines = .string "lines" ∧
    CommandAddr.to_object .Arguments = .string "arguments" ∧
    CommandAddr.to_object .Buffers = .string "buffers" ∧
    CommandAddr.to_object .LoadedBuffers = .string "loaded_buffers" ∧
    CommandAddr.to_object .Windows = .string "windows" ∧
    CommandAddr.to_object .Tabs = .string "tabs" ∧
    CommandAddr.to_object .Quickfix = .string "quickfix" ∧
    CommandAddr.to_object .Other = .string "other" ∧
    CommandComplete.to_object .FileInPath = .string "file_in_path" ∧
    CommandComplete.to_object .TagListfiles = .string "tag_listfiles" ∧
    (∀ a : CommandAddr,
      CommandAddr.to_object a = .string (snake_case a.ident)) ∧
    (∀ f : FunRef, CommandComplete.to_object (.CustomList f) =
      .dictionary [("custom_list", .luaref f.luaref)]) := by
  refine ⟨rfl, rfl, rfl, rfl, rfl, rfl, rfl, rfl, rfl, rfl,
    fun a => rfl, fun f => rfl⟩

end NvimOxi
